import Mathlib

/-!
Verification of the birthday-predictor analysis pipeline.

Each definition below is a shallow embedding of a function of the Python
sources (`analyzer.py`, `confidence.py`, `identity.py`, `parser.py`).
Python floats are modelled as rationals, Python `datetime.date` values as
integer day numbers (midnight of day `d` sits at hour `24*d`) or as
explicit (year, month, day) records, Python strings as `List Char`, and
the compiled regex matchers as their observable outputs (whether the
negative pattern matched, the list of `findall` occurrences, ...), which
are passed in as data.
-/

namespace BirthdayPredictor

/-! ## WishDetector: `analyzer.py _calculate_wish_score` (lines 126-156)

The regex layer is abstracted by its observable outputs on a fixed message
text and configuration:
* `textEmpty`      : `not text` (the early-return guard);
* `negMatch`       : `negative_pattern.search(text_lower)` succeeded;
* `strongOccs`     : `strong_wish_pattern.findall(text_lower)`, the list of
                     non-overlapping whole-word strong-phrase occurrences,
                     in textual order (the code takes its `len`);
* `weakPresent`    : how many configured weak-signal tokens are contained
                     in the text (the `for emoji in weak_signals` loop adds
                     0.1 once per configured token that is present);
* `wordCount`      : `len(text.split())`.
-/

structure ScoreInput where
  textEmpty : Bool
  negMatch : Bool
  strongOccs : List (List Char)
  weakPresent : ℕ
  wordCount : ℕ

/-- Embedding of `BirthdayAnalyzer._calculate_wish_score`. -/
def calculate_wish_score (inp : ScoreInput) : ℚ :=
  if inp.textEmpty then 0
  else if inp.negMatch then 0
  else
    let strong : ℕ := inp.strongOccs.length
    let score : ℚ := (strong : ℚ) * (8/10)
    let score := score + (inp.weakPresent : ℚ) * (1/10)
    let score := if strong > 1 then score + 2/10 else score
    let score := if inp.wordCount < 3 ∧ strong = 0 then score * (1/2) else score
    min score 1

/-- Clamp of a rational to the interval [0, 1] (the spec's "clamp to [0,1]"). -/
def clamp01 (q : ℚ) : ℚ := max 0 (min q 1)

/-- Modelled from the spec's formula for the score (§4.2): `0.8 × count of
distinct whole-word strong-wish-phrase matches`, i.e. the occurrence list is
deduplicated before counting.  Kept for comparison with
`calculate_wish_score`, which counts every occurrence. -/
def calculate_wish_score_specDistinct (inp : ScoreInput) : ℚ :=
  if inp.textEmpty then 0
  else if inp.negMatch then 0
  else
    let strong : ℕ := inp.strongOccs.dedup.length
    let score : ℚ := (strong : ℚ) * (8/10)
    let score := score + (inp.weakPresent : ℚ) * (1/10)
    let score := if strong > 1 then score + 2/10 else score
    let score := if inp.wordCount < 3 ∧ strong = 0 then score * (1/2) else score
    clamp01 score

/-- The score formula of `calculate_wish_score` before the final cap, with the
occurrence count (not deduplicated), as the corrected spec formula reads. -/
def wishScoreFormula (inp : ScoreInput) : ℚ :=
  let strong : ℕ := inp.strongOccs.length
  let score : ℚ := (strong : ℚ) * (8/10)
  let score := score + (inp.weakPresent : ℚ) * (1/10)
  let score := if strong > 1 then score + 2/10 else score
  if inp.wordCount < 3 ∧ strong = 0 then score * (1/2) else score

/-! ## DateAdjuster: `analyzer.py adjust_birthday_date` (lines 469-505)

A wish message is reduced to the data the function reads: whether
`'belated' in wish.modifiers` and whether `'advance' in wish.modifiers`.
The cluster date is a day number; `timedelta(days=1)` is `1`. -/

structure ModWish where
  belated : Bool
  advance : Bool

/-- Embedding of `BirthdayAnalyzer.adjust_birthday_date`.  `wishes` is
`cluster.wish_messages`, `clusterDate` is `cluster.date` as a day number. -/
def adjust_birthday_date (wishes : List ModWish) (clusterDate : ℤ) : ℤ :=
  let total_wishes : ℕ := wishes.length
  let belated_count : ℕ := (wishes.filter (fun w => w.belated)).length
  let advance_count : ℕ := (wishes.filter (fun w => w.advance)).length
  if (belated_count : ℚ) > (total_wishes : ℚ) * (1/2) then clusterDate - 1
  else if (advance_count : ℚ) > (total_wishes : ℚ) * (1/2) then clusterDate + 1
  else clusterDate

/-! ## Theorems for C1, C4, C10 -/

/-- C1: for every message text and configuration, the wish score lies in
[0,1]; and whenever the configured negative pattern matches the text, the
returned score is exactly 0, regardless of strong or weak matches. -/
theorem C1_wish_score_bounds_and_negative_shortcircuit (inp : ScoreInput) :
    (0 ≤ calculate_wish_score inp ∧ calculate_wish_score inp ≤ 1) ∧
    (inp.negMatch = true → calculate_wish_score inp = 0) := by
  unfold calculate_wish_score
  refine ⟨?_, ?_⟩
  · by_cases he : inp.textEmpty
    · simp [he]
    · by_cases hn : inp.negMatch
      · simp [he, hn]
      · simp only [he, hn, if_false, Bool.false_eq_true]
        constructor
        · apply le_min
          · by_cases hs : inp.wordCount < 3 ∧ inp.strongOccs.length = 0
            · simp only [hs, if_true]
              positivity
            · simp only [hs, if_false]
              by_cases hm : inp.strongOccs.length > 1
              · simp only [hm, if_true]; positivity
              · simp only [hm, if_false]; positivity
          · norm_num
        · exact min_le_right _ _
  · intro hn
    by_cases he : inp.textEmpty <;> simp [he, hn]

theorem C1_witness :
    (0 ≤ calculate_wish_score ⟨false, true, [], 2, 5⟩ ∧
      calculate_wish_score ⟨false, true, [], 2, 5⟩ ≤ 1) ∧
    (true = true → calculate_wish_score ⟨false, true, [], 2, 5⟩ = 0) :=
  C1_wish_score_bounds_and_negative_shortcircuit ⟨false, true, [], 2, 5⟩

/-- C4 counterexample: the code counts every `findall` occurrence, not
distinct matches.  The message text "happy birthday happy birthday" yields
two identical strong-phrase occurrences and four words, so the code scores
`min(0.8·2 + 0.2, 1) = 1`, while the claimed formula with a distinct count
scores `0.8·1 = 4/5`. -/
theorem C4_counterexample :
    calculate_wish_score
        ⟨false, false, [['h','b'], ['h','b']], 0, 4⟩ = 1 ∧
    calculate_wish_score_specDistinct
        ⟨false, false, [['h','b'], ['h','b']], 0, 4⟩ = 4/5 ∧
    calculate_wish_score
        ⟨false, false, [['h','b'], ['h','b']], 0, 4⟩ ≠
      calculate_wish_score_specDistinct
        ⟨false, false, [['h','b'], ['h','b']], 0, 4⟩ := by
  have hd : ([['h','b'], ['h','b']] : List (List Char)).dedup = [['h','b']] := by
    decide
  have h1 : calculate_wish_score ⟨false, false, [['h','b'], ['h','b']], 0, 4⟩ = 1 := by
    unfold calculate_wish_score
    norm_num
  have h2 : calculate_wish_score_specDistinct
      ⟨false, false, [['h','b'], ['h','b']], 0, 4⟩ = 4/5 := by
    unfold calculate_wish_score_specDistinct clamp01
    rw [hd]
    norm_num
  refine ⟨h1, h2, ?_⟩
  rw [h1, h2]
  norm_num

/-- C4 (amended): for every message text matching no negative pattern (and
non-empty), the wish score equals the clamp to [0,1] of: 0.8 times the
total count of non-overlapping whole-word strong-wish-phrase occurrences
(repeated matches counted each time), plus 0.1 per configured weak-signal
token present, plus 0.2 if there is more than one strong occurrence, the
total multiplied by 0.5 when the message has fewer than 3 words and zero
strong occurrences. -/
theorem C4_score_formula (inp : ScoreInput)
    (he : inp.textEmpty = false) (hn : inp.negMatch = false) :
    calculate_wish_score inp = clamp01 (wishScoreFormula inp) := by
  unfold calculate_wish_score clamp01 wishScoreFormula
  simp only [he, hn, Bool.false_eq_true, if_false]
  have h0 : 0 ≤ (if inp.strongOccs.length > 1 then
      (inp.strongOccs.length : ℚ) * (8/10) + (inp.weakPresent : ℚ) * (1/10) + 2/10
    else (inp.strongOccs.length : ℚ) * (8/10) + (inp.weakPresent : ℚ) * (1/10)) := by
    by_cases hm : inp.strongOccs.length > 1
    · simp only [hm, if_true]; positivity
    · simp only [hm, if_false]; positivity
  by_cases hs : inp.wordCount < 3 ∧ inp.strongOccs.length = 0
  · simp only [hs, if_true]
    rw [max_eq_right]
    exact le_min (by positivity) (by norm_num)
  · simp only [hs, if_false]
    rw [max_eq_right]
    exact le_min h0 (by norm_num)

theorem C4_score_formula_witness :
    calculate_wish_score ⟨false, false, [['h','b']], 1, 2⟩ =
      clamp01 (wishScoreFormula ⟨false, false, [['h','b']], 1, 2⟩) :=
  C4_score_formula ⟨false, false, [['h','b']], 1, 2⟩ rfl rfl

/-- C10: the date-adjustment operation is total (it is a Lean function) and
whenever neither the belated count nor the advance count strictly exceeds
half the number of wishes — in particular for a cluster with zero wishes —
the returned date is the cluster date unchanged. -/
theorem C10_adjust_date_total_and_unchanged (wishes : List ModWish) (d : ℤ)
    (hb : ¬ (((wishes.filter (fun w => w.belated)).length : ℚ) >
        (wishes.length : ℚ) * (1/2)))
    (ha : ¬ (((wishes.filter (fun w => w.advance)).length : ℚ) >
        (wishes.length : ℚ) * (1/2))) :
    adjust_birthday_date wishes d = d := by
  unfold adjust_birthday_date
  simp only [hb, ha, if_false]

theorem C10_witness : adjust_birthday_date [] 5 = 5 :=
  C10_adjust_date_total_and_unchanged [] 5 (by norm_num) (by norm_num)

/-! ## ClusterEngine: `analyzer.py cluster_wishes_by_date` (lines 213-298)

Calendar dates are integer day numbers; the midnight of day `d` is hour
`24*d`, so `datetime.combine(date, min.time())` is `24*d` hours and
`window_start + timedelta(hours=window_hours)` is `24*a + W` hours.
`date_groups` is abstracted by `score : ℤ → ℚ`, the summed wish score of
the group at each date (`sum(w.wish_score for w in date_groups[d])`), so a
window's `total_score` is the sum of `score` over its absorbed dates.
`sorted_dates` is the strictly sorted list of dates that carry at least one
wish; the function returns, for each emitted cluster, its absorbed date set
`cluster_dates` (the data the partition claims are about). -/

/-- The window test of the inner loop: `window_start <= check_datetime <=
window_end`, in hours.  Note both ends are inclusive in the code. -/
def inWindow (w : ℤ) (anchor d : ℤ) : Bool :=
  (24 * anchor ≤ 24 * d) && (24 * d ≤ 24 * anchor + w)

/-- The dates absorbed by the window opened at `anchor`: the inner
`for check_date in sorted_dates` loop. -/
def absorbed (w : ℤ) (allDates : List ℤ) (anchor : ℤ) : List ℤ :=
  allDates.filter (fun d => inWindow w anchor d)

/-- Modelled from the spec (§4.3): a half-open window
`[date midnight, date midnight + window_hours)`, exclusive at the right
end.  Kept for comparison with `absorbed`. -/
def absorbedSpecHalfOpen (w : ℤ) (allDates : List ℤ) (anchor : ℤ) : List ℤ :=
  allDates.filter (fun d => (24 * anchor ≤ 24 * d) && (24 * d < 24 * anchor + w))

/-- The main loop of `cluster_wishes_by_date`: walk the sorted dates,
skip processed ones, open a window, and emit its date set when the summed
score reaches the threshold, marking the absorbed dates processed. -/
def clusterLoop (w : ℤ) (minScore : ℚ) (score : ℤ → ℚ) (allDates : List ℤ) :
    List ℤ → List ℤ → List (List ℤ)
  | [], _ => []
  | d :: rest, processed =>
    if d ∈ processed then clusterLoop w minScore score allDates rest processed
    else
      let c := absorbed w allDates d
      if minScore ≤ (c.map score).sum then
        c :: clusterLoop w minScore score allDates rest (processed ++ c)
      else
        clusterLoop w minScore score allDates rest processed

/-- Embedding of `BirthdayAnalyzer.cluster_wishes_by_date`, returning each
emitted cluster's absorbed date set. -/
def cluster_wishes_by_date (w : ℤ) (minScore : ℚ) (score : ℤ → ℚ)
    (dates : List ℤ) : List (List ℤ) :=
  clusterLoop w minScore score dates dates []

/-- Two date lists are disjoint. -/
def DatesDisjoint (A B : List ℤ) : Prop := ∀ x, x ∈ A → x ∉ B

theorem mem_absorbed {w : ℤ} {allDates : List ℤ} {anchor d : ℤ} :
    d ∈ absorbed w allDates anchor ↔
      d ∈ allDates ∧ 24 * anchor ≤ 24 * d ∧ 24 * d ≤ 24 * anchor + w := by
  simp [absorbed, inWindow, List.mem_filter, and_assoc]

/-- Invariant lemma for the clustering loop: provided the remaining dates
are sorted, are all candidates, and every unprocessed remaining date has a
window disjoint from the processed set, the emitted clusters are pairwise
disjoint and avoid the processed set. -/
theorem clusterLoop_disjoint (w : ℤ) (minScore : ℚ) (score : ℤ → ℚ)
    (allDates : List ℤ) :
    ∀ (remaining processed : List ℤ),
      remaining.Sorted (· < ·) →
      (∀ c ∈ remaining, c ∈ allDates) →
      (∀ c ∈ remaining, c ∉ processed →
        ∀ x ∈ allDates, inWindow w c x → x ∉ processed) →
      List.Pairwise DatesDisjoint
          (clusterLoop w minScore score allDates remaining processed) ∧
        (∀ A ∈ clusterLoop w minScore score allDates remaining processed,
          ∀ x ∈ A, x ∉ processed)
  | [], _, _, _, _ => by
    simp [clusterLoop]
  | d :: rest, processed, hsort, hsub, hclean => by
    have hsort' : rest.Sorted (· < ·) := hsort.of_cons
    have hlt : ∀ c ∈ rest, d < c := fun c hc =>
      (List.sorted_cons.mp hsort).1 c hc
    have hsub' : ∀ c ∈ rest, c ∈ allDates := fun c hc => hsub c (.tail _ hc)
    rw [clusterLoop]
    by_cases hd : d ∈ processed
    · simp only [hd, if_true]
      exact clusterLoop_disjoint w minScore score allDates rest processed
        hsort' hsub'
        (fun c hc => hclean c (.tail _ hc))
    · simp only [hd, if_false]
      by_cases hemit : minScore ≤ ((absorbed w allDates d).map score).sum
      · simp only [hemit, if_true]
        -- the freshly absorbed window avoids the processed set
        have habs_clean : ∀ x ∈ absorbed w allDates d, x ∉ processed := by
          intro x hx
          rcases mem_absorbed.mp hx with ⟨hxall, h1, h2⟩
          exact hclean d (.head _) hd x hxall (by simp [inWindow, h1, h2])
        -- the invariant is preserved for the extended processed set
        have hclean' : ∀ c ∈ rest, c ∉ processed ++ absorbed w allDates d →
            ∀ x ∈ allDates, inWindow w c x →
              x ∉ processed ++ absorbed w allDates d := by
          intro c hc hcp x hxall hwin
          simp only [List.mem_append, not_or] at hcp ⊢
          rcases hcp with ⟨hcp1, hcp2⟩
          refine ⟨hclean c (.tail _ hc) hcp1 x hxall hwin, ?_⟩
          intro hxabs
          rcases mem_absorbed.mp hxabs with ⟨_, hdx1, hdx2⟩
          simp only [inWindow, Bool.and_eq_true, decide_eq_true_eq] at hwin
          -- c lies in d's window, so c would have been absorbed: contradiction
          have hcd : d < c := hlt c hc
          have hcmem : c ∈ absorbed w allDates d :=
            mem_absorbed.mpr ⟨hsub' c hc, by linarith, by linarith⟩
          exact hcp2 hcmem
        rcases clusterLoop_disjoint w minScore score allDates rest
            (processed ++ absorbed w allDates d) hsort' hsub' hclean' with
          ⟨ihpair, ihavoid⟩
        constructor
        · refine List.pairwise_cons.mpr ⟨?_, ihpair⟩
          intro A hA x hx
          intro hxA
          exact ihavoid A hA x hxA (by simp [hx])
        · intro A hA x hx
          rcases List.mem_cons.mp hA with rfl | hA'
          · exact habs_clean x hx
          · intro hxp
            exact ihavoid A hA' x hx (by simp [hxp])
      · simp only [hemit, if_false]
        exact clusterLoop_disjoint w minScore score allDates rest processed
          hsort' hsub'
          (fun c hc => hclean c (.tail _ hc))

/-- C2: for a single run of the clustering operation, the emitted clusters
absorb pairwise-disjoint sets of calendar dates: no date contributes its
wish messages to more than one emitted cluster. -/
theorem C2_clusters_partition_dates (w : ℤ) (minScore : ℚ) (score : ℤ → ℚ)
    (dates : List ℤ) (hsort : dates.Sorted (· < ·)) :
    List.Pairwise DatesDisjoint (cluster_wishes_by_date w minScore score dates) := by
  unfold cluster_wishes_by_date
  exact (clusterLoop_disjoint w minScore score dates dates [] hsort
    (fun c hc => hc) (fun c _ _ x _ _ hx => by cases hx)).1

theorem C2_witness :
    List.Pairwise DatesDisjoint
      (cluster_wishes_by_date 36 (3/10) (fun _ => 2/10) [1, 2, 3, 8]) :=
  C2_clusters_partition_dates 36 (3/10) (fun _ => 2/10) [1, 2, 3, 8]
    (by norm_num)

/-- C3 counterexample: the code's window test is inclusive at both ends
(`window_start <= check_datetime <= window_end`), not half-open.  With
`window_hours = 48`, candidate dates 0 and 2, the midnight of date 2 falls
exactly at `0's midnight + 48h`, yet the window opened at 0 absorbs it: the
code emits the single cluster {0, 2}, while the claimed half-open window
would leave date 2 out. -/
theorem C3_counterexample :
    absorbed 48 [0, 2] 0 = [0, 2] ∧
    absorbedSpecHalfOpen 48 [0, 2] 0 = [0] ∧
    24 * (2 : ℤ) = 24 * 0 + 48 ∧
    cluster_wishes_by_date 48 (3/10) (fun _ => 3/10) [0, 2] = [[0, 2]] := by
  refine ⟨by decide, by decide, by decide, ?_⟩
  norm_num [cluster_wishes_by_date, clusterLoop, absorbed, inWindow]

/-- C3 (amended): the window opened at candidate date D absorbs exactly
those candidate dates whose midnight lies in the closed interval
[D's midnight, D's midnight + window_hours]; in particular a candidate date
whose midnight falls exactly at D's midnight + window_hours is absorbed. -/
theorem C3_window_closed_interval (w : ℤ) (allDates : List ℤ) (anchor d : ℤ) :
    d ∈ absorbed w allDates anchor ↔
      d ∈ allDates ∧ 24 * anchor ≤ 24 * d ∧ 24 * d ≤ 24 * anchor + w :=
  mem_absorbed

/-! ## ConfidenceScorer: `confidence.py calculate_confidence` (lines 34-98)
and `_apply_penalties` (lines 116-144)

The evidence-summary dict is modelled by the fields the scorer reads
(`best_cluster` flattened to its two flags, as `_create_evidence_summary`
always populates it).  A Python-truthy phone is a `some` nonempty string;
the phone itself is irrelevant beyond truthiness, so a `Bool` suffices. -/

structure EvidenceSummary where
  has_explicit_mentions : Bool
  has_thanks_messages : Bool
  date_consistency : Bool
  chats : ℕ
  best_has_mentions : Bool
  best_has_thanks : Bool

structure ConfIdentity where
  years_observed : ℕ
  total_wishers : ℕ
  phoneKnown : Bool
  evidence : EvidenceSummary

structure ConfConfig where
  base_score : ℚ
  multi_year_bonus : ℚ
  unique_wishers_bonus : ℚ
  explicit_mention_bonus : ℚ
  thanks_bonus : ℚ
  conflicting_dates_penalty : ℚ

/-- The built-in defaults of `confidence.py` (each `config.get` fallback). -/
def defaultConfConfig : ConfConfig :=
  { base_score := 3/10
    multi_year_bonus := 2/10
    unique_wishers_bonus := 2/10
    explicit_mention_bonus := 1/10
    thanks_bonus := 15/100
    conflicting_dates_penalty := -2/10 }

/-- Embedding of `ConfidenceScorer._calculate_phone_confidence_bonus`. -/
def calculate_phone_confidence_bonus (idn : ConfIdentity) : ℚ :=
  if idn.phoneKnown then
    (5/100) + (if idn.evidence.chats > 1 then 5/100 else 0)
  else 0

/-- Embedding of `ConfidenceScorer._apply_penalties`. -/
def apply_penalties (cfg : ConfConfig) (confidence : ℚ) (idn : ConfIdentity) : ℚ :=
  let c := if idn.evidence.date_consistency then confidence
    else confidence + cfg.conflicting_dates_penalty
  let c := if idn.years_observed = 1 ∧ idn.total_wishers < 3 then c + (-1/10) else c
  if idn.evidence.has_explicit_mentions = false ∧
      idn.evidence.has_thanks_messages = false ∧
      idn.evidence.chats > 0 ∧
      idn.evidence.best_has_mentions = false ∧
      idn.evidence.best_has_thanks = false then
    c + (-15/100)
  else c

/-- Embedding of `ConfidenceScorer.calculate_confidence`. -/
def calculate_confidence (cfg : ConfConfig) (idn : ConfIdentity) : ℚ :=
  let c := cfg.base_score
  let c := if idn.years_observed > 1 then
      c + cfg.multi_year_bonus * ((min (idn.years_observed - 1) 3 : ℕ) : ℚ) / 3
    else c
  let c := if idn.total_wishers ≥ 5 then c + cfg.unique_wishers_bonus
    else if idn.total_wishers ≥ 3 then c + cfg.unique_wishers_bonus * (1/2)
    else c
  let c := if idn.evidence.has_explicit_mentions then c + cfg.explicit_mention_bonus
    else c
  let c := if idn.evidence.has_thanks_messages then c + cfg.thanks_bonus else c
  let c := c + calculate_phone_confidence_bonus idn
  let c := if idn.evidence.date_consistency then c + 1/10 else c
  let c := apply_penalties cfg c idn
  max 0 (min 1 c)

/-- The identity `idn` with its `years_observed` replaced, every other
piece of evidence held fixed. -/
def withYears (idn : ConfIdentity) (y : ℕ) : ConfIdentity :=
  { idn with years_observed := y }

/-- C5 counterexample: the multi-year bonus is capped by
`min(years_observed - 1, 3)`, so with all other evidence fixed, an identity
observed for 5 years scores exactly the same as one observed for 4 years:
the confidence score is not strictly increasing in `years_observed`. -/
theorem C5_counterexample :
    calculate_confidence defaultConfConfig
        ⟨4, 4, true, ⟨true, true, true, 1, true, true⟩⟩ =
      calculate_confidence defaultConfConfig
        ⟨5, 4, true, ⟨true, true, true, 1, true, true⟩⟩ ∧
    ¬ calculate_confidence defaultConfConfig
        ⟨4, 4, true, ⟨true, true, true, 1, true, true⟩⟩ <
      calculate_confidence defaultConfConfig
        ⟨5, 4, true, ⟨true, true, true, 1, true, true⟩⟩ := by
  have h : calculate_confidence defaultConfConfig
        ⟨4, 4, true, ⟨true, true, true, 1, true, true⟩⟩ =
      calculate_confidence defaultConfConfig
        ⟨5, 4, true, ⟨true, true, true, 1, true, true⟩⟩ := by
    norm_num [calculate_confidence, apply_penalties,
      calculate_phone_confidence_bonus, defaultConfConfig]
  exact ⟨h, by rw [h]; exact lt_irrefl _⟩

/-- Rewrites `if P then c + a else c` into `c + (if P then a else 0)`, used
to put the additive confidence model into a sum-of-ifs normal form. -/
theorem addIfThen (P : Prop) [Decidable P] (c a : ℚ) :
    (if P then c + a else c) = c + (if P then a else 0) := by
  split_ifs <;> ring

/-- Rewrites `if P then c else c + a` into `c + (if P then 0 else a)`. -/
theorem addIfElse (P : Prop) [Decidable P] (c a : ℚ) :
    (if P then c else c + a) = c + (if P then 0 else a) := by
  split_ifs <;> ring

/-- Rewrites `if P then c + a else c + b` into `c + (if P then a else b)`. -/
theorem addIfBoth (P : Prop) [Decidable P] (c a b : ℚ) :
    (if P then c + a else c + b) = c + (if P then a else b) := by
  split_ifs <;> ring

/-- Helper: the pre-clamp confidence is monotone in `years_observed`. -/
theorem confidence_mono_aux (cfg : ConfConfig) (idn : ConfIdentity)
    (y z : ℕ) (hb : 0 ≤ cfg.multi_year_bonus) (hy : 1 ≤ y) (hyz : y ≤ z) :
    (if y > 1 then
      cfg.multi_year_bonus * ((min (y - 1) 3 : ℕ) : ℚ) / 3 else 0) +
      (if y = 1 ∧ idn.total_wishers < 3 then (-1/10 : ℚ) else 0) ≤
    (if z > 1 then
      cfg.multi_year_bonus * ((min (z - 1) 3 : ℕ) : ℚ) / 3 else 0) +
      (if z = 1 ∧ idn.total_wishers < 3 then (-1/10 : ℚ) else 0) := by
  have hmin : ((min (y - 1) 3 : ℕ) : ℚ) ≤ ((min (z - 1) 3 : ℕ) : ℚ) := by
    exact_mod_cast min_le_min (Nat.sub_le_sub_right hyz 1) (le_refl 3)
  have hterm : (if y > 1 then
      cfg.multi_year_bonus * ((min (y - 1) 3 : ℕ) : ℚ) / 3 else 0) ≤
      (if z > 1 then
      cfg.multi_year_bonus * ((min (z - 1) 3 : ℕ) : ℚ) / 3 else 0) := by
    by_cases h1 : y > 1
    · have h2 : z > 1 := lt_of_lt_of_le h1 hyz
      simp only [h1, h2, if_true]
      have := mul_le_mul_of_nonneg_left hmin hb
      linarith
    · simp only [h1, if_false]
      by_cases h2 : z > 1
      · simp only [h2, if_true]
        positivity
      · simp only [h2, if_false]
        exact le_refl 0
  have hpen : (if y = 1 ∧ idn.total_wishers < 3 then (-1/10 : ℚ) else 0) ≤
      (if z = 1 ∧ idn.total_wishers < 3 then (-1/10 : ℚ) else 0) := by
    by_cases hz : z = 1 ∧ idn.total_wishers < 3
    · have hy1 : y = 1 := le_antisymm (hz.1 ▸ hyz) hy
      simp [hz, hy1]
    · simp only [hz, if_false]
      by_cases hy' : y = 1 ∧ idn.total_wishers < 3
      · simp only [hy', if_true]
        norm_num
      · simp [hy']
  linarith

/-- C5 (amended): holding every other piece of evidence fixed (and with a
nonnegative configured multi-year bonus), the confidence score is monotone
non-decreasing in `years_observed` for `years_observed ≥ 1` — strict growth
fails because the multi-year bonus is capped at 4 observed years and the
score is clamped at 1 — and the computed confidence never exceeds 1. -/
theorem C5_confidence_monotone_and_bounded (cfg : ConfConfig)
    (idn : ConfIdentity) (y z : ℕ)
    (hb : 0 ≤ cfg.multi_year_bonus) (hy : 1 ≤ y) (hyz : y ≤ z) :
    calculate_confidence cfg (withYears idn y) ≤
        calculate_confidence cfg (withYears idn z) ∧
      calculate_confidence cfg (withYears idn z) ≤ 1 := by
  constructor
  · have hterm := confidence_mono_aux cfg idn y z hb hy hyz
    simp only [calculate_confidence, apply_penalties, withYears,
      calculate_phone_confidence_bonus, addIfThen, addIfElse, addIfBoth]
    apply max_le_max (le_refl 0)
    apply min_le_min (le_refl 1)
    linarith
  · exact le_trans (max_le (by norm_num) (min_le_left _ _)) (le_refl 1)

theorem C5_witness :
    calculate_confidence defaultConfConfig
        (withYears ⟨1, 0, false, ⟨false, false, true, 1, false, false⟩⟩ 2) ≤
      calculate_confidence defaultConfConfig
        (withYears ⟨1, 0, false, ⟨false, false, true, 1, false, false⟩⟩ 3) ∧
    calculate_confidence defaultConfConfig
        (withYears ⟨1, 0, false, ⟨false, false, true, 1, false, false⟩⟩ 3) ≤ 1 :=
  C5_confidence_monotone_and_bounded defaultConfConfig
    ⟨1, 0, false, ⟨false, false, true, 1, false, false⟩⟩ 2 3
    (by norm_num [defaultConfConfig]) (by norm_num) (by norm_num)

/-! ## TargetInferencer: `analyzer.py _infer_target_group_chat` (lines 393-467)

Strings are `List Char`.  A wish message is reduced to the fields the
inference reads: its `mentioned_names` list, its `is_thanks` flag, and the
sender of its source message (`none` when the message lookup fails or the
message has no sender).  A Python `Optional[str]` display name collapses to
a `List Char` where `[]` is falsy (covering both `None` and `""`). -/

structure GWish where
  mentioned_names : List (List Char)
  is_thanks : Bool
  sender : Option (List Char)
deriving DecidableEq

structure GParticipant where
  id : ℕ
  display_name : List Char
  phone : Option (List Char)
deriving DecidableEq

/-- Keep the first occurrence of each element not yet in `seen`, in order. -/
def firstUniquesAux {α : Type} [DecidableEq α] (seen : List α) :
    List α → List α
  | [] => []
  | a :: rest =>
    if a ∈ seen then firstUniquesAux seen rest
    else a :: firstUniquesAux (a :: seen) rest

/-- Keep the first occurrence of each element, in order: the iteration
order of a Python `set`/`Counter` built by insertion. -/
def firstUniques {α : Type} [DecidableEq α] (l : List α) : List α :=
  firstUniquesAux [] l

/-- The multiplicity of `x` in `l` (a `Counter` count). -/
def countOcc {α : Type} [DecidableEq α] (x : α) (l : List α) : ℕ :=
  (l.filter (fun y => y = x)).length

/-- `Counter(l).most_common(1)[0][0]`: the element of `l` with the largest
count; on ties the first-inserted wins (Python's `most_common` sorts
stably by descending count). -/
def mostCommon {α : Type} [DecidableEq α] (l : List α) : Option α :=
  match firstUniques l with
  | [] => none
  | a :: rest =>
    some (rest.foldl (fun best x => if countOcc x l > countOcc best l then x else best) a)

/-- `p in s` on Python strings: contiguous substring test. -/
def containsSub (p : List Char) : List Char → Bool
  | [] => p.isEmpty
  | c :: rest => ((c :: rest).take p.length == p) || containsSub p rest

/-- `mention.startswith('@') and mention[1:].isdigit()`
(`"".isdigit()` is `False`). -/
def isPhoneMention (m : List Char) : Bool :=
  match m with
  | '@' :: rest => (!rest.isEmpty) && rest.all Char.isDigit
  | _ => false

/-- The phone mentions collected across the cluster, `@` stripped. -/
def phoneMentions (ws : List GWish) : List (List Char) :=
  (ws.flatMap (fun w => w.mentioned_names)).filterMap
    (fun m => if isPhoneMention m then some (m.drop 1) else none)

/-- The name mentions collected across the cluster. -/
def nameMentions (ws : List GWish) : List (List Char) :=
  (ws.flatMap (fun w => w.mentioned_names)).filter (fun m => !isPhoneMention m)

/-- `phone.replace('+', '').replace(' ', '')`. -/
def cleanPhone (p : List Char) : List Char :=
  (p.filter (fun c => c ≠ '+')).filter (fun c => c ≠ ' ')

def toLowerL (s : List Char) : List Char := s.map Char.toLower

/-- Strategy 1: most frequent phone mention, matched as a digit substring
of a participant's normalized phone; the first matching participant in
list order wins.  `none` when there are no phone mentions or no
participant matches (the code then falls through). -/
def tryPhoneStrategy (ws : List GWish) (parts : List GParticipant) : Option ℕ :=
  match mostCommon (phoneMentions ws) with
  | none => none
  | some mostPhone =>
    match parts.find? (fun p =>
        match p.phone with
        | some ph => containsSub mostPhone (cleanPhone ph)
        | none => false) with
    | some p => some p.id
    | none => none

/-- Strategy 2: most frequent name mention, matched case-insensitively as
a substring of a participant's display name. -/
def tryNameStrategy (ws : List GWish) (parts : List GParticipant) : Option ℕ :=
  match mostCommon (nameMentions ws) with
  | none => none
  | some mostName =>
    match parts.find? (fun p =>
        (!p.display_name.isEmpty) &&
          containsSub (toLowerL mostName) (toLowerL p.display_name)) with
    | some p => some p.id
    | none => none

/-- `participant_lookup.get(name)`: the dict comprehension keyed by display
name keeps the last participant with each name. -/
def participantByName (parts : List GParticipant) (n : List Char) :
    Option GParticipant :=
  parts.reverse.find? (fun p => p.display_name = n)

/-- Strategy 3: a unique thanks-sender. -/
def tryThanksStrategy (ws : List GWish) (parts : List GParticipant) : Option ℕ :=
  match firstUniques (ws.filterMap (fun w => if w.is_thanks then w.sender else none)) with
  | [s] => (participantByName parts s).map (fun p => p.id)
  | _ => none

/-- Strategy 4: elimination — a unique participant display name that sent
no non-thanks wish. -/
def tryEliminationStrategy (ws : List GWish) (parts : List GParticipant) :
    Option ℕ :=
  let wishers := (ws.filter (fun w => !w.is_thanks)).filterMap (fun w => w.sender)
  match (firstUniques (parts.map (fun p => p.display_name))).filter
      (fun n => n ∉ wishers) with
  | [n] => (participantByName parts n).map (fun p => p.id)
  | _ => none

/-- Embedding of `BirthdayAnalyzer._infer_target_group_chat`: the four
strategies tried in order, first hit wins. -/
def infer_target_group_chat (ws : List GWish) (parts : List GParticipant) :
    Option ℕ :=
  match tryPhoneStrategy ws parts with
  | some t => some t
  | none =>
    match tryNameStrategy ws parts with
    | some t => some t
    | none =>
      match tryThanksStrategy ws parts with
      | some t => some t
      | none => tryEliminationStrategy ws parts

/-- C6: in a group chat whose cluster carries both a dominant phone mention
whose digit string is contained in some participant's normalized phone and
a dominant (different) name mention matching another participant's display
name case-insensitively as a substring, target inference returns the
phone-matched participant: the phone strategy has priority over the name
strategy. -/
theorem C6_phone_strategy_priority (ws : List GWish)
    (parts : List GParticipant) (mostPhone mostName : List Char)
    (A B : GParticipant)
    (hphone : mostCommon (phoneMentions ws) = some mostPhone)
    (hfindA : parts.find? (fun p =>
        match p.phone with
        | some ph => containsSub mostPhone (cleanPhone ph)
        | none => false) = some A)
    (hname : mostCommon (nameMentions ws) = some mostName)
    (hB : B ∈ parts)
    (hBmatch : ((!B.display_name.isEmpty) &&
        containsSub (toLowerL mostName) (toLowerL B.display_name)) = true)
    (hAB : A.id ≠ B.id) :
    infer_target_group_chat ws parts = some A.id := by
  unfold infer_target_group_chat tryPhoneStrategy
  simp only [hphone, hfindA]

theorem C6_witness :
    infer_target_group_chat
      [⟨[['@','5','5','5'], ['B','o','b']], false, some ['C','a','r','l']⟩]
      [⟨1, ['A','n','n'], some ['+','5','5','5','1']⟩,
        ⟨2, ['B','o','b'], none⟩] = some 1 := by
  have h := C6_phone_strategy_priority
    [⟨[['@','5','5','5'], ['B','o','b']], false, some ['C','a','r','l']⟩]
    [⟨1, ['A','n','n'], some ['+','5','5','5','1']⟩, ⟨2, ['B','o','b'], none⟩]
    ['5','5','5'] ['B','o','b']
    ⟨1, ['A','n','n'], some ['+','5','5','5','1']⟩ ⟨2, ['B','o','b'], none⟩
    (by decide) (by decide) (by decide) (by decide) (by decide) (by decide)
  exact h

/-! ## IdentityResolver: `identity.py` (lines 34-292)

Dates are (year, month, day) records.  The identity-key strings
(`"phone:…"`, `"name:…"`, `"name_chat:…:…"`, `"participant:…:…"`) are
modelled by an inductive type with one constructor per prefix; Python
truthiness of an optional string is `some` of a nonempty string, and of an
`int` id is `≠ 0`.  A cluster is reduced to the fields the resolver reads. -/

structure BDate where
  year : ℕ
  month : ℕ
  day : ℕ
deriving DecidableEq

structure ICluster where
  chat_id : ℕ
  date : Option BDate
  target_participant_id : Option ℕ
  unique_wishers : ℕ
  total_wish_score : ℚ
  has_thanks : Bool
  has_explicit_mentions : Bool
deriving DecidableEq

structure IParticipant where
  id : ℕ
  chat_id : ℕ
  display_name : List Char
  phone : Option (List Char)
deriving DecidableEq

/-- A truthy optional string: present and nonempty. -/
def truthyStr : Option (List Char) → Option (List Char)
  | some s => if s.isEmpty then none else some s
  | none => none

inductive IdKey
  | phoneK (p : List Char)
  | nameK (n : List Char)
  | nameChatK (n : List Char) (chat : ℕ)
  | participantK (chat : ℕ) (pid : ℕ)
deriving DecidableEq

/-- The name/fallback tail of `_get_identity_key` (taken when the
participant has no truthy phone). -/
def identity_key_name_branch (p : IParticipant)
    (allParts : List IParticipant) : IdKey :=
  if p.display_name.isEmpty then .participantK p.chat_id p.id
  else
    let same_name := allParts.filter
      (fun q => q.display_name = p.display_name && q.chat_id ≠ p.chat_id)
    let phones_for_name := firstUniques (same_name.filterMap
      (fun q => truthyStr q.phone))
    if phones_for_name.length > 1 then .nameChatK p.display_name p.chat_id
    else .nameK p.display_name

/-- Embedding of `IdentityResolver._get_identity_key`. -/
def get_identity_key (p : IParticipant) (allParts : List IParticipant) : IdKey :=
  match truthyStr p.phone with
  | some ph => .phoneK ph
  | none => identity_key_name_branch p allParts

/-- `participant_lookup = {p.id: p for p in all_participants if p.id}` and a
`get`: the dict keeps the last participant per truthy id. -/
def participantById (allParts : List IParticipant) (pid : ℕ) :
    Option IParticipant :=
  ((allParts.filter (fun p => p.id ≠ 0)).reverse).find? (fun p => p.id = pid)

structure Observation where
  cluster : ICluster
  participant : IParticipant
  date : BDate
deriving DecidableEq

/-- Append an observation to its key's group, preserving first-insertion
key order (a `defaultdict`). -/
def addObs (k : IdKey) (o : Observation) :
    List (IdKey × List Observation) → List (IdKey × List Observation)
  | [] => [(k, [o])]
  | (k', os) :: rest =>
    if k' = k then (k', os ++ [o]) :: rest else (k', os) :: addObs k o rest

/-- Embedding of `IdentityResolver._group_observations_by_identity`. -/
def group_observations_by_identity (clusters : List ICluster)
    (allParts : List IParticipant) : List (IdKey × List Observation) :=
  clusters.foldl (fun acc c =>
    match c.target_participant_id with
    | none => acc
    | some t =>
      if t = 0 then acc
      else
        match c.date with
        | none => acc
        | some d =>
          match participantById allParts t with
          | none => acc
          | some p => addObs (get_identity_key p allParts) ⟨c, p, d⟩ acc) []

/-- Remove the first occurrence of `x` (`List.erase`, with propositional
equality). -/
def eraseFirst {α : Type} [DecidableEq α] (x : α) : List α → List α
  | [] => []
  | a :: rest => if a = x then rest else a :: eraseFirst x rest

/-- `Counter(l).most_common(2)[1][0]`: drop the most common element from
the insertion-ordered uniques, then take the argmax count again (Python's
stable descending sort). -/
def secondCommon {α : Type} [DecidableEq α] (l : List α) : Option α :=
  match mostCommon l with
  | none => none
  | some a =>
    match eraseFirst a (firstUniques l) with
    | [] => none
    | b :: rest =>
      some (rest.foldl (fun best x => if countOcc x l > countOcc best l then x else best) b)

def daysInMonth2023 (m : ℕ) : ℕ :=
  if m = 1 then 31 else if m = 2 then 28 else if m = 3 then 31
  else if m = 4 then 30 else if m = 5 then 31 else if m = 6 then 30
  else if m = 7 then 31 else if m = 8 then 31 else if m = 9 then 30
  else if m = 10 then 31 else if m = 11 then 30 else if m = 12 then 31 else 0

/-- `Date(2023, month, day)` succeeds (2023 is the non-leap reference year
of `_are_dates_adjacent`; an invalid pair raises `ValueError`). -/
def isValidDate2023 (md : ℕ × ℕ) : Bool :=
  (1 ≤ md.1 && md.1 ≤ 12) && (1 ≤ md.2 && md.2 ≤ daysInMonth2023 md.1)

def dayOfYear2023 (md : ℕ × ℕ) : ℕ :=
  ((List.range (md.1 - 1)).map (fun i => daysInMonth2023 (i + 1))).sum + md.2

/-- Embedding of `IdentityResolver._are_dates_adjacent`: day distance ≤ 1 in
a non-leap year; `False` when either date is invalid there (the
`except ValueError` branch — notably for Feb 29). -/
def are_dates_adjacent (d1 d2 : ℕ × ℕ) : Bool :=
  isValidDate2023 d1 && isValidDate2023 d2 &&
    decide (((dayOfYear2023 d1 : ℤ) - (dayOfYear2023 d2 : ℤ)).natAbs ≤ 1)

/-- Embedding of `IdentityResolver._is_leap_year_pattern`. -/
def is_leap_year_pattern (d1 d2 : ℕ × ℕ) : Bool :=
  ((d1, d2) == (((2 : ℕ), (28 : ℕ)), ((2 : ℕ), (29 : ℕ)))) ||
  ((d1, d2) == (((2 : ℕ), (29 : ℕ)), ((3 : ℕ), (1 : ℕ)))) ||
  ((d1, d2) == (((2 : ℕ), (28 : ℕ)), ((3 : ℕ), (1 : ℕ)))) ||
  ((d2, d1) == (((2 : ℕ), (28 : ℕ)), ((2 : ℕ), (29 : ℕ)))) ||
  ((d2, d1) == (((2 : ℕ), (29 : ℕ)), ((3 : ℕ), (1 : ℕ)))) ||
  ((d2, d1) == (((2 : ℕ), (28 : ℕ)), ((3 : ℕ), (1 : ℕ))))

/-- Embedding of `IdentityResolver._determine_birthday` over the list of
`(month, day)` observations in grouping order. -/
def determine_birthday (obs_md : List (ℕ × ℕ)) : Option (ℕ × ℕ) :=
  if (firstUniques obs_md).length = 0 then none
  else if (firstUniques obs_md).length = 1 then mostCommon obs_md
  else
    match mostCommon obs_md, secondCommon obs_md with
    | some primary, some secondary =>
      if are_dates_adjacent primary secondary then some primary
      else if is_leap_year_pattern primary secondary &&
          ((primary == ((2 : ℕ), (29 : ℕ))) || (secondary == ((2 : ℕ), (29 : ℕ)))) then
        some ((2 : ℕ), (29 : ℕ))
      else some primary
    | some primary, none => some primary
    | none, _ => none

/-- Embedding of `IdentityResolver._determine_canonical_name`. -/
def determine_canonical_name (obs : List Observation) : List Char :=
  let names := (obs.map (fun o => o.participant.display_name)).filter
    (fun n => !n.isEmpty)
  match mostCommon names with
  | some n => n
  | none =>
    match obs with
    | [] => []
    | o :: _ =>
      match truthyStr o.participant.phone with
      | some ph => ph
      | none =>
        ("Participant ".toList) ++ Nat.toDigits 10 o.participant.id

/-- Embedding of `IdentityResolver._determine_phone`. -/
def determine_phone (obs : List Observation) : Option (List Char) :=
  let phonesList := obs.filterMap (fun o => truthyStr o.participant.phone)
  match firstUniques phonesList with
  | [ph] => some ph
  | [] => none
  | _ :: _ :: _ => mostCommon phonesList

/-- Insertion sort on naturals (for `sorted(list(set(years)))`). -/
def insertSorted (x : ℕ) : List ℕ → List ℕ
  | [] => [x]
  | y :: rest => if x ≤ y then x :: y :: rest else y :: insertSorted x rest

def sortNat (l : List ℕ) : List ℕ := l.foldr insertSorted []

/-- `max(observations, key=(unique_wishers, total_wish_score))`: the first
observation with the lexicographically largest key. -/
def bestObservation (obs : List Observation) : Option Observation :=
  match obs with
  | [] => none
  | o :: rest =>
    some (rest.foldl (fun best x =>
      if x.cluster.unique_wishers > best.cluster.unique_wishers ∨
          (x.cluster.unique_wishers = best.cluster.unique_wishers ∧
            x.cluster.total_wish_score > best.cluster.total_wish_score)
      then x else best) o)

structure IEvidence where
  total_observations : ℕ
  years : List ℕ
  chats : ℕ
  total_wishers : ℕ
  has_explicit_mentions : Bool
  has_thanks_messages : Bool
  date_consistency : Bool
  best : Option (BDate × ℕ × ℚ × Bool × Bool)
deriving DecidableEq

/-- Embedding of `IdentityResolver._create_evidence_summary`. -/
def create_evidence_summary (obs : List Observation) : IEvidence :=
  { total_observations := obs.length
    years := sortNat (firstUniques (obs.map (fun o => o.date.year)))
    chats := (firstUniques (obs.map (fun o => o.participant.chat_id))).length
    total_wishers := (obs.map (fun o => o.cluster.unique_wishers)).sum
    has_explicit_mentions := obs.any (fun o => o.cluster.has_explicit_mentions)
    has_thanks_messages := obs.any (fun o => o.cluster.has_thanks)
    date_consistency :=
      (firstUniques (obs.map (fun o => (o.date.month, o.date.day)))).length == 1
    best := (bestObservation obs).map (fun b =>
      (b.date, b.cluster.unique_wishers, b.cluster.total_wish_score,
        b.cluster.has_explicit_mentions, b.cluster.has_thanks)) }

structure RIdentity where
  canonical_name : List Char
  phone : Option (List Char)
  birthday_month : ℕ
  birthday_day : ℕ
  years_observed : ℕ
  total_wishers : ℕ
  evidence : IEvidence
deriving DecidableEq

/-- Embedding of `IdentityResolver._create_identity_from_observations`. -/
def create_identity_from_observations (obs : List Observation) :
    Option RIdentity :=
  match obs with
  | [] => none
  | _ :: _ =>
    match determine_birthday (obs.map (fun o => (o.date.month, o.date.day))) with
    | none => none
    | some (bm, bd) =>
      if bm = 0 ∨ bd = 0 then none
      else
        some
          { canonical_name := determine_canonical_name obs
            phone := determine_phone obs
            birthday_month := bm
            birthday_day := bd
            years_observed := (firstUniques (obs.map (fun o => o.date.year))).length
            total_wishers := (obs.map (fun o => o.cluster.unique_wishers)).sum
            evidence := create_evidence_summary obs }

/-- Embedding of `IdentityResolver.resolve_identities`. -/
def resolve_identities (clusters : List ICluster)
    (allParts : List IParticipant) : List RIdentity :=
  (group_observations_by_identity clusters allParts).filterMap
    (fun e => create_identity_from_observations e.2)

/-! ## Lemmas about `firstUniques`, and C7 -/

theorem mem_firstUniquesAux {α : Type} [DecidableEq α] (seen l : List α) (x : α) :
    x ∈ firstUniquesAux seen l ↔ x ∈ l ∧ x ∉ seen := by
  induction l generalizing seen with
  | nil => simp [firstUniquesAux]
  | cons a rest ih =>
    by_cases ha : a ∈ seen
    · rw [firstUniquesAux, if_pos ha, ih]
      constructor
      · rintro ⟨hx, hxs⟩
        exact ⟨.tail _ hx, hxs⟩
      · rintro ⟨hx, hxs⟩
        rcases List.mem_cons.mp hx with rfl | hx'
        · exact absurd ha hxs
        · exact ⟨hx', hxs⟩
    · rw [firstUniquesAux, if_neg ha]
      constructor
      · intro hx
        rcases List.mem_cons.mp hx with rfl | hx'
        · exact ⟨.head _, ha⟩
        · rcases (ih _).mp hx' with ⟨h1, h2⟩
          exact ⟨.tail _ h1, fun hs => h2 (.tail _ hs)⟩
      · rintro ⟨hx, hxs⟩
        rcases List.mem_cons.mp hx with rfl | hx'
        · exact .head _
        · by_cases hxa : x = a
          · subst hxa
            exact .head _
          · refine .tail _ ((ih _).mpr ⟨hx', ?_⟩)
            intro hmem
            rcases List.mem_cons.mp hmem with h | h
            · exact hxa h
            · exact hxs h

theorem nodup_firstUniquesAux {α : Type} [DecidableEq α] (seen l : List α) :
    (firstUniquesAux seen l).Nodup := by
  induction l generalizing seen with
  | nil => simp [firstUniquesAux]
  | cons a rest ih =>
    by_cases ha : a ∈ seen
    · rw [firstUniquesAux, if_pos ha]
      exact ih seen
    · rw [firstUniquesAux, if_neg ha]
      refine List.nodup_cons.mpr ⟨?_, ih _⟩
      intro hmem
      exact ((mem_firstUniquesAux _ _ _).mp hmem).2 (.head _)

theorem mem_firstUniques {α : Type} [DecidableEq α] {l : List α} {x : α} :
    x ∈ firstUniques l ↔ x ∈ l := by
  rw [firstUniques, mem_firstUniquesAux]
  simp

theorem nodup_firstUniques {α : Type} [DecidableEq α] (l : List α) :
    (firstUniques l).Nodup :=
  nodup_firstUniquesAux [] l

/-- A duplicate-free list whose members are exactly two distinct elements
is one of the two orderings. -/
theorem twoMemChar {α : Type} {A B : α} {l : List α} (hAB : A ≠ B)
    (hnd : l.Nodup) (hA : A ∈ l) (hB : B ∈ l)
    (hall : ∀ x ∈ l, x = A ∨ x = B) : l = [A, B] ∨ l = [B, A] := by
  cases l with
  | nil => cases hA
  | cons x t =>
    cases t with
    | nil =>
      have hxA : A = x := List.mem_singleton.mp hA
      have hxB : B = x := List.mem_singleton.mp hB
      exact absurd (hxA.trans hxB.symm) hAB
    | cons y rest =>
      rcases List.nodup_cons.mp hnd with ⟨hxny, hnd'⟩
      rcases List.nodup_cons.mp hnd' with ⟨hynr, _⟩
      have hxy : x ≠ y := fun h => hxny (h ▸ List.mem_cons_self _ _)
      have hxr : x ∉ rest := fun h => hxny (List.mem_cons.mpr (Or.inr h))
      have hrest : rest = [] := by
        rw [List.eq_nil_iff_forall_not_mem]
        intro z hz
        have hzx : z ≠ x := fun h => hxr (h ▸ hz)
        have hzy : z ≠ y := fun h => hynr (h ▸ hz)
        have hx2 := hall x (.head _)
        have hy2 := hall y (.tail _ (.head _))
        have hz2 := hall z (.tail _ (.tail _ hz))
        rcases hx2 with rfl | rfl <;> rcases hy2 with rfl | rfl <;>
          rcases hz2 with rfl | rfl <;> simp_all
      subst hrest
      have hx2 := hall x (.head _)
      have hy2 := hall y (.tail _ (.head _))
      rcases hx2 with rfl | rfl <;> rcases hy2 with rfl | rfl
      · exact absurd rfl hxy
      · exact Or.inl rfl
      · exact Or.inr rfl
      · exact absurd rfl hxy

/-- C7: when the grouped (month, day) observations for an identity contain
exactly the two values (2, 29) and (3, 1), birthday determination resolves
to (2, 29): the Feb-29/Mar-1 pair is never calendar-adjacent in the
non-leap reference year (Feb 29 is invalid there), so the leap-year pattern
applies and prefers Feb 29, whichever of the two values is more frequent. -/
theorem C7_leap_year_resolution (obs : List (ℕ × ℕ))
    (hA : ((2 : ℕ), (29 : ℕ)) ∈ obs) (hB : ((3 : ℕ), (1 : ℕ)) ∈ obs)
    (hall : ∀ x ∈ obs, x = ((2 : ℕ), (29 : ℕ)) ∨ x = ((3 : ℕ), (1 : ℕ))) :
    determine_birthday obs = some ((2 : ℕ), (29 : ℕ)) := by
  have hAB : ((2 : ℕ), (29 : ℕ)) ≠ ((3 : ℕ), (1 : ℕ)) := by decide
  have huniq := twoMemChar hAB (nodup_firstUniques obs)
    (mem_firstUniques.mpr hA) (mem_firstUniques.mpr hB)
    (fun x hx => hall x (mem_firstUniques.mp hx))
  rcases huniq with h | h
  · have h1 : mostCommon obs =
        some (if countOcc ((3 : ℕ), (1 : ℕ)) obs > countOcc ((2 : ℕ), (29 : ℕ)) obs
          then ((3 : ℕ), (1 : ℕ)) else ((2 : ℕ), (29 : ℕ))) := by
      rw [mostCommon, h]
      rfl
    by_cases hc : countOcc ((3 : ℕ), (1 : ℕ)) obs > countOcc ((2 : ℕ), (29 : ℕ)) obs
    · have h1' : mostCommon obs = some ((3 : ℕ), (1 : ℕ)) := by
        rw [h1, if_pos hc]
      have h2 : secondCommon obs = some ((2 : ℕ), (29 : ℕ)) := by
        rw [secondCommon, h1', h]
        rfl
      unfold determine_birthday
      rw [h, h1', h2]
      decide
    · have h1' : mostCommon obs = some ((2 : ℕ), (29 : ℕ)) := by
        rw [h1, if_neg hc]
      have h2 : secondCommon obs = some ((3 : ℕ), (1 : ℕ)) := by
        rw [secondCommon, h1', h]
        rfl
      unfold determine_birthday
      rw [h, h1', h2]
      decide
  · have h1 : mostCommon obs =
        some (if countOcc ((2 : ℕ), (29 : ℕ)) obs > countOcc ((3 : ℕ), (1 : ℕ)) obs
          then ((2 : ℕ), (29 : ℕ)) else ((3 : ℕ), (1 : ℕ))) := by
      rw [mostCommon, h]
      rfl
    by_cases hc : countOcc ((2 : ℕ), (29 : ℕ)) obs > countOcc ((3 : ℕ), (1 : ℕ)) obs
    · have h1' : mostCommon obs = some ((2 : ℕ), (29 : ℕ)) := by
        rw [h1, if_pos hc]
      have h2 : secondCommon obs = some ((3 : ℕ), (1 : ℕ)) := by
        rw [secondCommon, h1', h]
        rfl
      unfold determine_birthday
      rw [h, h1', h2]
      decide
    · have h1' : mostCommon obs = some ((3 : ℕ), (1 : ℕ)) := by
        rw [h1, if_neg hc]
      have h2 : secondCommon obs = some ((2 : ℕ), (29 : ℕ)) := by
        rw [secondCommon, h1', h]
        rfl
      unfold determine_birthday
      rw [h, h1', h2]
      decide

theorem C7_witness :
    determine_birthday [((2 : ℕ), (29 : ℕ)), ((3 : ℕ), (1 : ℕ))] =
      some ((2 : ℕ), (29 : ℕ)) :=
  C7_leap_year_resolution [((2 : ℕ), (29 : ℕ)), ((3 : ℕ), (1 : ℕ))]
    (by decide) (by decide) (by decide)

/-! ## TranscriptParser: `parser.py _parse_datetime_flexible` (lines 306-342)

Only the 2-digit-year expansion step is embedded (the subsequent `strptime`
call is outside the claims).  `date_str.split('/')`, `str.replace` (which
replaces EVERY occurrence, scanning left to right without overlap), and
`int(...)` are modelled below. -/

def splitOnAux (sep : Char) : List Char → List Char → List (List Char)
  | [], acc => [acc.reverse]
  | c :: rest, acc =>
    if c = sep then acc.reverse :: splitOnAux sep rest []
    else splitOnAux sep rest (c :: acc)

/-- `s.split(sep)` for a one-character separator. -/
def splitOn (sep : Char) (s : List Char) : List (List Char) :=
  splitOnAux sep s []

/-- `s.replace(p, r)` with fuel (one unit per consumed character, so
`s.length` always suffices): every non-overlapping occurrence of `p` is
replaced, scanning left to right. -/
def replaceAllFuel (p r : List Char) : ℕ → List Char → List Char
  | 0, s => s
  | _ + 1, [] => []
  | fuel + 1, c :: rest =>
    if p ≠ [] ∧ (c :: rest).take p.length = p then
      r ++ replaceAllFuel p r fuel ((c :: rest).drop p.length)
    else c :: replaceAllFuel p r fuel rest

/-- `s.replace(p, r)`. -/
def replaceAll (p r s : List Char) : List Char :=
  replaceAllFuel p r s.length s

/-- `int(s)` for a decimal digit string; `none` models the `ValueError`. -/
def natOfDigits? (s : List Char) : Option ℕ :=
  if s ≠ [] ∧ s.all Char.isDigit then
    some (s.foldl (fun acc c => 10 * acc + (c.toNat - ('0').toNat)) 0)
  else none

/-- Embedding of the 2-digit-year expansion step of
`TranscriptParser._parse_datetime_flexible` (lines 310-318): the returned
string is what the combined `strptime` call receives; `none` is the
`ValueError` path (the dialect parse is abandoned and fallback formats are
tried on the unexpanded string). -/
def parse_datetime_year_expansion (date_format date_str : List Char) :
    Option (List Char) :=
  let parts := splitOn '/' date_str
  let year_part := parts.getLastD []
  if (!containsSub ['Y', 'Y'] (date_format.map Char.toUpper)) &&
      (year_part.length == 2) then
    match natOfDigits? year_part with
    | none => none
    | some v =>
      if v ≤ 30 then
        some (replaceAll ('/' :: year_part) ('/' :: '2' :: '0' :: year_part) date_str)
      else
        some (replaceAll ('/' :: year_part) ('/' :: '1' :: '9' :: year_part) date_str)
  else some date_str

def joinWith (sep : Char) : List (List Char) → List Char
  | [] => []
  | [x] => x
  | x :: y :: rest => x ++ sep :: joinWith sep (y :: rest)

/-- Modelled from the spec (§4.1) and the claim: a 2-digit year `YY` in the
date string "is expanded to 2000+YY when YY ≤ 30 and to 1900+YY otherwise",
i.e. only the final `/`-separated year component is rewritten. -/
def year_expansion_specLastOnly (date_str : List Char) : Option (List Char) :=
  let parts := splitOn '/' date_str
  let year_part := parts.getLastD []
  if year_part.length == 2 then
    match natOfDigits? year_part with
    | none => none
    | some v =>
      let century := if v ≤ 30 then ['2', '0'] else ['1', '9']
      some (joinWith '/' (parts.dropLast ++ [century ++ year_part]))
  else some date_str

/-- C9: `str.replace` replaces every occurrence of `/YY`, so on the header
date `12/31/31` (format `%m/%d/%y`) the code hands `12/1931/1931` to
`strptime` — the day component is corrupted and the parse of the dialect
format fails — while the documented intent (comment: "Convert YY format to
YYYY", year 31 falling in the 1931-1999 band) and the claim produce
`12/31/1931`. -/
theorem C9_replace_all_corrupts_day :
    parse_datetime_year_expansion
        ['%', 'm', '/', '%', 'd', '/', '%', 'y']
        ['1', '2', '/', '3', '1', '/', '3', '1'] =
      some ['1', '2', '/', '1', '9', '3', '1', '/', '1', '9', '3', '1'] ∧
    year_expansion_specLastOnly ['1', '2', '/', '3', '1', '/', '3', '1'] =
      some ['1', '2', '/', '3', '1', '/', '1', '9', '3', '1'] ∧
    parse_datetime_year_expansion
        ['%', 'm', '/', '%', 'd', '/', '%', 'y']
        ['1', '2', '/', '3', '1', '/', '3', '1'] ≠
      year_expansion_specLastOnly ['1', '2', '/', '3', '1', '/', '3', '1'] := by
  refine ⟨by decide, by decide, by decide⟩

/-! ## C8: identity merge on a shared phone across two years -/

/-- For two observations with nonzero month and day components, birthday
determination always yields a pair with nonzero components (the Python
falsiness guard on the returned month/day cannot fire). -/
theorem determine_birthday_pair_nonzero (md1 md2 : ℕ × ℕ)
    (h1 : md1.1 ≠ 0) (h2 : md1.2 ≠ 0) (h3 : md2.1 ≠ 0) (h4 : md2.2 ≠ 0) :
    ∃ bm bd, determine_birthday [md1, md2] = some (bm, bd) ∧
      ¬(bm = 0 ∨ bd = 0) := by
  by_cases heq : md2 = md1
  · subst heq
    have hfu : firstUniques [md2, md2] = [md2] := by
      simp [firstUniques, firstUniquesAux]
    have hmc : mostCommon [md2, md2] = some md2 := by
      rw [mostCommon, hfu]
      rfl
    refine ⟨md2.1, md2.2, ?_, ?_⟩
    · rw [determine_birthday, hfu]
      simp [hmc]
    · simp [h3, h4]
  · have hfu : firstUniques [md1, md2] = [md1, md2] := by
      simp [firstUniques, firstUniquesAux, heq]
    have hcount1 : countOcc md1 [md1, md2] = 1 := by
      simp [countOcc, heq, Ne.symm heq]
    have hcount2 : countOcc md2 [md1, md2] = 1 := by
      simp [countOcc, heq, Ne.symm heq]
    have hmc : mostCommon [md1, md2] = some md1 := by
      rw [mostCommon, hfu]
      simp [hcount1, hcount2]
    have hsc : secondCommon [md1, md2] = some md2 := by
      rw [secondCommon, hmc, hfu]
      simp [eraseFirst]
    rw [determine_birthday, hfu]
    simp only [List.length_cons, List.length_nil, hmc, hsc]
    norm_num
    split_ifs with hadj hleap
    · exact ⟨md1.1, md1.2, by simp, by simp [h1, h2]⟩
    · exact ⟨2, 29, rfl, by norm_num⟩
    · exact ⟨md1.1, md1.2, by simp, by simp [h1, h2]⟩

/-- C8: two clusters from different chats, dated in distinct years, whose
target participants carry the same (truthy) normalized phone, resolve to a
single Identity whose `years_observed` equals 2: the phone is the
highest-priority identity key, so both observations land in one group. -/
theorem C8_same_phone_merges_two_years (c1 c2 : ICluster)
    (p1 p2 : IParticipant) (φ : List Char) (d1 d2 : BDate)
    (hφ : φ ≠ [])
    (hp1 : p1.phone = some φ) (hp2 : p2.phone = some φ)
    (hi1 : p1.id ≠ 0) (hi2 : p2.id ≠ 0) (hne : p1.id ≠ p2.id)
    (hchat : p1.chat_id ≠ p2.chat_id)
    (ht1 : c1.target_participant_id = some p1.id)
    (ht2 : c2.target_participant_id = some p2.id)
    (hd1 : c1.date = some d1) (hd2 : c2.date = some d2)
    (hy : d1.year ≠ d2.year)
    (hm1 : d1.month ≠ 0) (hdy1 : d1.day ≠ 0)
    (hm2 : d2.month ≠ 0) (hdy2 : d2.day ≠ 0) :
    (resolve_identities [c1, c2] [p1, p2]).map (fun i => i.years_observed) =
      [2] := by
  have hempty : φ.isEmpty = false := by
    cases φ with
    | nil => exact absurd rfl hφ
    | cons a t => rfl
  have hlook1 : participantById [p1, p2] p1.id = some p1 := by
    simp [participantById, hi1, hi2, Ne.symm hne]
  have hlook2 : participantById [p1, p2] p2.id = some p2 := by
    simp [participantById, hi1, hi2]
  have hkey1 : get_identity_key p1 [p1, p2] = .phoneK φ := by
    rw [get_identity_key, hp1]
    simp [truthyStr, hempty]
  have hkey2 : get_identity_key p2 [p1, p2] = .phoneK φ := by
    rw [get_identity_key, hp2]
    simp [truthyStr, hempty]
  have hgroup : group_observations_by_identity [c1, c2] [p1, p2] =
      [(IdKey.phoneK φ, [⟨c1, p1, d1⟩, ⟨c2, p2, d2⟩])] := by
    simp [group_observations_by_identity, ht1, ht2, hd1, hd2, hi1, hi2,
      hlook1, hlook2, hkey1, hkey2, addObs]
  obtain ⟨bm, bd, hdb, hnz⟩ := determine_birthday_pair_nonzero
    (d1.month, d1.day) (d2.month, d2.day) hm1 hdy1 hm2 hdy2
  have hmap : ([⟨c1, p1, d1⟩, ⟨c2, p2, d2⟩] : List Observation).map
      (fun o => (o.date.month, o.date.day)) =
      [(d1.month, d1.day), (d2.month, d2.day)] := rfl
  have hci : create_identity_from_observations
      [⟨c1, p1, d1⟩, ⟨c2, p2, d2⟩] = some
        { canonical_name :=
            determine_canonical_name [⟨c1, p1, d1⟩, ⟨c2, p2, d2⟩]
          phone := determine_phone [⟨c1, p1, d1⟩, ⟨c2, p2, d2⟩]
          birthday_month := bm
          birthday_day := bd
          years_observed := (firstUniques
            (([⟨c1, p1, d1⟩, ⟨c2, p2, d2⟩] : List Observation).map
              (fun o => o.date.year))).length
          total_wishers :=
            (([⟨c1, p1, d1⟩, ⟨c2, p2, d2⟩] : List Observation).map
              (fun o => o.cluster.unique_wishers)).sum
          evidence := create_evidence_summary [⟨c1, p1, d1⟩, ⟨c2, p2, d2⟩] } := by
    simp only [create_identity_from_observations, hmap, hdb]
    rw [if_neg hnz]
  have hyears : (firstUniques [d1.year, d2.year]).length = 2 := by
    simp [firstUniques, firstUniquesAux, hy, Ne.symm hy]
  rw [resolve_identities, hgroup]
  simp [hci, hyears]

theorem C8_witness :
    (resolve_identities
        [⟨1, some ⟨2023, 5, 17⟩, some 1, 3, 1, false, false⟩,
          ⟨2, some ⟨2024, 5, 17⟩, some 2, 4, 1, false, false⟩]
        [⟨1, 1, ['A'], some ['9']⟩, ⟨2, 2, ['B'], some ['9']⟩]).map
      (fun i => i.years_observed) = [2] :=
  C8_same_phone_merges_two_years
    ⟨1, some ⟨2023, 5, 17⟩, some 1, 3, 1, false, false⟩
    ⟨2, some ⟨2024, 5, 17⟩, some 2, 4, 1, false, false⟩
    ⟨1, 1, ['A'], some ['9']⟩ ⟨2, 2, ['B'], some ['9']⟩
    ['9'] ⟨2023, 5, 17⟩ ⟨2024, 5, 17⟩
    (by decide) rfl rfl (by decide) (by decide) (by decide) (by decide)
    rfl rfl rfl rfl (by decide) (by decide) (by decide) (by decide) (by decide)

end BirthdayPredictor
